import Mathlib

/-!
Verification of the product-listing logic of the bestbuy repository.

Two pieces of logic are embedded:
* `BestBuy.Modify` — the local filter/sort view of
  `src/components/ModifyProductsList.tsx` (`filteredAndSortedProducts`);
* `BestBuy.Hooks` — the paginated fetcher of
  `expo/src/hooks/useProducts.ts` (`queryKey`, `fetchProducts`,
  `getNextPageParam`, `prefetchNextPage`).

JavaScript strings are modelled as Lean `String`s with character-wise
ASCII case mapping (`Char.toLower`), which is faithful on the ASCII
fragment that all concrete inputs below use.  JavaScript numbers used as
prices, timestamps and indices are modelled as `Int`/`Nat`.  Timestamps
(`new Date(x).getTime()`) are abstracted to the resulting integer epoch
value.  `Array.prototype.sort` (stable since ES2019) applied to a
comparator that is a total preorder produces the unique stable order, so
it is modelled by Mathlib's stable `List.insertionSort`.
-/

namespace BestBuy

/-- ASCII model of JavaScript `String.prototype.toLowerCase`. -/
def jsToLower (s : String) : String := ⟨s.data.map Char.toLower⟩

/-- Model of JavaScript `String.prototype.trim` (ASCII whitespace). -/
def jsTrim (s : String) : String :=
  ⟨((s.data.dropWhile Char.isWhitespace).reverse.dropWhile Char.isWhitespace).reverse⟩

/-- Model of JavaScript `haystack.includes(needle)`: `needle` occurs as a
contiguous substring of `haystack`. -/
def jsIncludes (haystack needle : String) : Bool :=
  decide (needle.data <:+: haystack.data)

namespace Modify

/-- Owner profile denormalized onto a product
(`product.profiles` in `ModifyProductsList.tsx`); every field is read
through optional chaining, hence `Option`. -/
structure Profile where
  username : Option String
  full_name : Option String
  deriving DecidableEq, Repr

/-- The fields of `Product` (spec §3 data model) that
`ModifyProductsList.tsx` reads.  `price` and `product_status` may be
absent (the code guards with `(a.price || 0)` and compares
`product_status === "draft"`); `created_at` is the abstracted timestamp. -/
structure Product where
  id : String
  title : Option String
  price : Option Int
  category : String
  created_at : Int
  product_status : Option String
  profiles : Option Profile
  deriving DecidableEq, Repr

/-- `product.title?.toLowerCase().includes(searchQuery.toLowerCase())`
for an optionally-present string field: an absent field is `undefined`,
which is falsy. -/
def optFieldMatches (field : Option String) (lowerQuery : String) : Bool :=
  match field with
  | some s => jsIncludes (jsToLower s) lowerQuery
  | none => false

/-- The search half of the filter predicate, lines 79–82 of
`ModifyProductsList.tsx`. -/
def matchesSearch (searchQuery : String) (p : Product) : Bool :=
  decide (jsTrim (jsToLower searchQuery) = "") ||
  optFieldMatches p.title (jsToLower searchQuery) ||
  optFieldMatches (p.profiles.bind (·.username)) (jsToLower searchQuery) ||
  optFieldMatches (p.profiles.bind (·.full_name)) (jsToLower searchQuery)

/-- The category half of the filter predicate, line 84. -/
def matchesCategory (selectedCategory : String) (p : Product) : Bool :=
  decide (selectedCategory = "all") || decide (p.category = selectedCategory)

/-- The filter callback of `filteredAndSortedProducts`, lines 78–87. -/
def passesFilter (searchQuery selectedCategory : String) (p : Product) : Bool :=
  matchesSearch searchQuery p && matchesCategory selectedCategory p

/-- `(a.price || 0)`: an absent price is coerced to `0`. -/
def priceOrZero (p : Product) : Int := p.price.getD 0

/-- `product_status === "draft"`. -/
def isDraft (p : Product) : Bool := p.product_status = some "draft"

/-- The sort comparator of `filteredAndSortedProducts`, lines 88–96. -/
def compareProducts (sortOrder : String) (a b : Product) : Int :=
  if sortOrder = "price_asc" then priceOrZero a - priceOrZero b
  else if sortOrder = "price_desc" then priceOrZero b - priceOrZero a
  else if sortOrder = "newest" then b.created_at - a.created_at
  else if sortOrder = "oldest" then a.created_at - b.created_at
  else if isDraft a && !isDraft b then -1
  else if !isDraft a && isDraft b then 1
  else 0

/-- The "comes no later than" relation induced by the comparator: JS sort
places `a` before `b` (or keeps their order) exactly when the comparator
is `≤ 0`. -/
def sortRel (sortOrder : String) (a b : Product) : Prop :=
  compareProducts sortOrder a b ≤ 0

instance sortRelDecidable (sortOrder : String) : DecidableRel (sortRel sortOrder) :=
  fun a b => inferInstanceAs (Decidable (compareProducts sortOrder a b ≤ 0))

/-- A per-mode integer sort key characterising the comparator. -/
def sortKey (sortOrder : String) (p : Product) : Int :=
  if sortOrder = "price_asc" then priceOrZero p
  else if sortOrder = "price_desc" then -priceOrZero p
  else if sortOrder = "newest" then -p.created_at
  else if sortOrder = "oldest" then p.created_at
  else if isDraft p then 0 else 1

theorem compareProducts_le_iff (sortOrder : String) (a b : Product) :
    compareProducts sortOrder a b ≤ 0 ↔ sortKey sortOrder a ≤ sortKey sortOrder b := by
  unfold compareProducts sortKey
  split_ifs <;> simp_all

instance (sortOrder : String) : IsTotal Product (sortRel sortOrder) where
  total a b := by
    unfold sortRel
    rw [compareProducts_le_iff, compareProducts_le_iff]
    omega

instance (sortOrder : String) : IsTrans Product (sortRel sortOrder) where
  trans a b c hab hbc := by
    unfold sortRel at *
    rw [compareProducts_le_iff] at *
    omega

/-- `products.filter(...).sort(...)`, lines 77–96, with JS's stable sort
modelled by the stable `List.insertionSort`. -/
def filteredAndSortedProducts (searchQuery selectedCategory sortOrder : String)
    (products : List Product) : List Product :=
  (products.filter (passesFilter searchQuery selectedCategory)).insertionSort (sortRel sortOrder)

/-- A heap of product arrays, modelling JavaScript array identity:
`.filter` allocates a fresh array, `.sort` mutates in place the array it
is called on.  Used to state that deriving the view never mutates the
caller's `products` array. -/
structure Store where
  arrays : List (List Product)
  deriving Repr

/-- Read the array a reference points to. -/
def Store.get (s : Store) (r : Nat) : List Product := s.arrays.getD r []

/-- Allocate a fresh array, returning the new store and its reference. -/
def Store.alloc (s : Store) (a : List Product) : Store × Nat :=
  ({ arrays := s.arrays ++ [a] }, s.arrays.length)

/-- Overwrite the array a reference points to (in-place mutation). -/
def Store.put (s : Store) (r : Nat) (a : List Product) : Store :=
  { arrays := s.arrays.set r a }

/-- `products.filter(...)` allocates a fresh array and `.sort(...)`
mutates that fresh array in place; the caller's array at `productsRef`
is never written.  Returns the store after the derivation and the
reference holding the derived view. -/
def deriveView (s : Store) (productsRef : Nat)
    (searchQuery selectedCategory sortOrder : String) : Store × Nat :=
  let filtered := (s.get productsRef).filter (passesFilter searchQuery selectedCategory)
  let allocRes := s.alloc filtered
  let s1 := allocRes.1
  let fRef := allocRes.2
  let s2 := s1.put fRef ((s1.get fRef).insertionSort (sortRel sortOrder))
  (s2, fRef)

/-- Case-insensitive substring occurrence of the search text in an
optionally-present string field; vacuously false when the field is
absent. -/
def ciOccursIn (q : String) : Option String → Prop
  | some t => (jsToLower q).data <:+: (jsToLower t).data
  | none => False

instance ciOccursInDecidable (q : String) : (t : Option String) → Decidable (ciOccursIn q t)
  | some t => inferInstanceAs (Decidable ((jsToLower q).data <:+: (jsToLower t).data))
  | none => inferInstanceAs (Decidable False)

/-- The filter predicate with the literal wording of the spec: the
search text is empty, or occurs case-insensitively as a substring of the
title, the owner's username or the owner's full name; and the selected
category is "all" or equals the product's category. -/
def specPassesLiteral (q c : String) (p : Product) : Prop :=
  (q = "" ∨ ciOccursIn q p.title ∨ ciOccursIn q (p.profiles.bind (·.username)) ∨
    ciOccursIn q (p.profiles.bind (·.full_name))) ∧
  (c = "all" ∨ p.category = c)

/-- The amended filter predicate: "search text is empty" weakened to
"search text is empty after lower-casing and trimming", which is what
line 79 of the component actually tests. -/
def specPassesAmended (q c : String) (p : Product) : Prop :=
  (jsTrim (jsToLower q) = "" ∨ ciOccursIn q p.title ∨
    ciOccursIn q (p.profiles.bind (·.username)) ∨
    ciOccursIn q (p.profiles.bind (·.full_name))) ∧
  (c = "all" ∨ p.category = c)

instance specPassesLiteralDecidable (q c : String) (p : Product) :
    Decidable (specPassesLiteral q c p) := by
  unfold specPassesLiteral; infer_instance

instance specPassesAmendedDecidable (q c : String) (p : Product) :
    Decidable (specPassesAmended q c p) := by
  unfold specPassesAmended; infer_instance

/-- Sample product priced 10. -/
def prod10 : Product :=
  { id := "p10", title := some "ten", price := some 10, category := "books",
    created_at := 1, product_status := some "published", profiles := none }

/-- Sample product priced 30. -/
def prod30 : Product :=
  { id := "p30", title := some "thirty", price := some 30, category := "books",
    created_at := 2, product_status := some "published", profiles := none }

/-- Sample product priced 20. -/
def prod20 : Product :=
  { id := "p20", title := some "twenty", price := some 20, category := "books",
    created_at := 3, product_status := some "published", profiles := none }

/-- Sample draft product. -/
def draftProd : Product :=
  { id := "d1", title := some "draft thing", price := some 7, category := "books",
    created_at := 4, product_status := some "draft", profiles := none }

/-- Sample published (non-draft) product. -/
def publishedProd : Product :=
  { id := "q1", title := some "published thing", price := some 8, category := "books",
    created_at := 5, product_status := some "published", profiles := none }

/-- Sample product with an absent price. -/
def prodNoPrice : Product :=
  { id := "n1", title := some "no price", price := none, category := "books",
    created_at := 6, product_status := some "published", profiles := none }

/-- Sample product with a negative price. -/
def prodNegPrice : Product :=
  { id := "m1", title := some "negative price", price := some (-1), category := "books",
    created_at := 7, product_status := some "published", profiles := none }

/-- Sample product titled "apple" with no owner profile. -/
def appleProd : Product :=
  { id := "a1", title := some "apple", price := some 3, category := "toys",
    created_at := 8, product_status := some "published", profiles := none }

end Modify

namespace Hooks

/-- One image record of a product (`product_images` entries). -/
structure ProductImage where
  storage_path : String
  is_main : Bool
  deriving DecidableEq, Repr

/-- Denormalized owner profile selected by the fetch
(`profiles:user_id(username, full_name, avatar_url)`). -/
structure ProfileInfo where
  username : String
  full_name : String
  avatar_url : String
  deriving DecidableEq, Repr

/-- The `Product` interface of `useProducts.ts` (lines 6–28). -/
structure Product where
  id : String
  title : String
  description : String
  price : Int
  currency : String
  category : String
  user_id : String
  storage_path : String
  available_quantity : Int
  in_stock : Bool
  county : Option String
  country_id : Option Int
  product_images : Option (List ProductImage)
  profiles : Option ProfileInfo
  deriving DecidableEq, Repr

/-- The `UseProductsProps` parameter tuple of `useProducts` (lines 30–39),
with the defaults already applied.  `limit` defaults to 10. -/
structure Params where
  searchQuery : String
  selectedCategory : String
  selectedRegion : String
  selectedCountry : String
  sortOrder : String
  showOnlyPublished : Bool
  userOnly : Bool
  limit : Nat
  deriving DecidableEq, Repr

/-- One element of the react-query cache key array, which mixes strings
and booleans. -/
inductive KeyPart where
  | str (s : String)
  | bool (b : Bool)
  deriving DecidableEq, Repr

/-- The memoized `queryKey` of `useProducts` (lines 54–57):
`["products", searchQuery, selectedCategory, selectedRegion,
selectedCountry, sortOrder, showOnlyPublished, userOnly]`.
Note that `limit` does not appear in it. -/
def queryKey (p : Params) : List KeyPart :=
  [KeyPart.str "products", KeyPart.str p.searchQuery, KeyPart.str p.selectedCategory,
   KeyPart.str p.selectedRegion, KeyPart.str p.selectedCountry, KeyPart.str p.sortOrder,
   KeyPart.bool p.showOnlyPublished, KeyPart.bool p.userOnly]

/-- Model of JavaScript `Number(s)` on strings, as used for
`selectedCountry`; `none` models `NaN`. -/
def jsNumber (s : String) : Option Int :=
  if jsTrim s = "" then some 0 else (jsTrim s).toInt?

/-- One filter clause appended to the supabase query builder. -/
inductive ProductFilter where
  | ilikeTitle (pattern : String)
  | eqCategory (c : String)
  | eqCounty (c : String)
  | eqCountryId (n : Option Int)
  | eqProductStatus (s : String)
  | eqUserId (uid : String)
  deriving DecidableEq, Repr

/-- The ordering clause applied last in `fetchProducts`. -/
inductive SortSpec where
  | priceAsc
  | priceDesc
  | createdAtDesc
  deriving DecidableEq, Repr

/-- The remote query that `fetchProducts` builds: a row range, a
conjunction of filters (in the order the code appends them) and an
ordering. -/
structure Query where
  range : Int × Int
  filters : List ProductFilter
  order : SortSpec
  deriving DecidableEq, Repr

/-- The query construction of `fetchProducts` (lines 59–119 of
`useProducts.ts`).  `authUser` is the identity returned by
`supabase.auth.getUser()` (`none` when unauthenticated); `pageParam` is
the zero-based page index. -/
def fetchProductsQuery (p : Params) (authUser : Option String) (pageParam : Nat) : Query :=
  let startRange : Int := (pageParam : Int) * (p.limit : Int)
  let endRange : Int := startRange + ((p.limit : Int) - 1)
  let filters :=
    (if p.searchQuery = "" then [] else
      [ProductFilter.ilikeTitle ("%" ++ p.searchQuery ++ "%")]) ++
    (if p.selectedCategory = "all" then [] else
      [ProductFilter.eqCategory p.selectedCategory]) ++
    (if p.selectedRegion ≠ "" ∧ p.selectedRegion ≠ "all" then
      [ProductFilter.eqCounty p.selectedRegion] else []) ++
    (if p.selectedCountry ≠ "" ∧ p.selectedCountry ≠ "all" then
      [ProductFilter.eqCountryId (jsNumber p.selectedCountry)] else []) ++
    (if p.showOnlyPublished then [ProductFilter.eqProductStatus "published"] else []) ++
    (if p.userOnly then
      match authUser with
      | some uid => [ProductFilter.eqUserId uid]
      | none => []
     else [])
  let order :=
    if p.sortOrder = "asc" then SortSpec.priceAsc
    else if p.sortOrder = "desc" then SortSpec.priceDesc
    else SortSpec.createdAtDesc
  { range := (startRange, endRange), filters := filters, order := order }

/-- `getNextPageParam` (lines 135–137):
`lastPage.length < limit ? undefined : allPages.length`. -/
def getNextPageParam (limit : Nat) (lastPage : List Product)
    (allPages : List (List Product)) : Option Nat :=
  if lastPage.length < limit then none else some allPages.length

/-- The slice of `useInfiniteQuery`'s result that `prefetchNextPage`
reads: loaded pages (if any), whether a next-page fetch is in flight, and
the has-more flag. -/
structure QueryState where
  dataPages : Option (List (List Product))
  isFetchingNextPage : Bool
  hasNextPage : Bool
  deriving DecidableEq, Repr

/-- A prefetch issued to the query client: the cache key it stores under
and the page index it starts fetching at. -/
structure PrefetchRequest where
  key : List KeyPart
  initialPageParam : Nat
  deriving DecidableEq, Repr

/-- `prefetchNextPage` (lines 144–153).  When the guard passes, the code
computes `nextPageParam = result.data.pages.length` but never uses it:
the prefetch is issued with `initialPageParam: 0`. -/
def prefetchNextPage (p : Params) (st : QueryState) : Option PrefetchRequest :=
  match st.dataPages with
  | some pages =>
      if !st.isFetchingNextPage && st.hasNextPage then
        let _nextPageParam := pages.length
        some { key := queryKey p, initialPageParam := 0 }
      else none
  | none => none

/-- Sample fetched product. -/
def sampleHProduct : Product :=
  { id := "h1", title := "widget", description := "a widget", price := 1,
    currency := "USD", category := "books", user_id := "u1", storage_path := "sp",
    available_quantity := 1, in_stock := true, county := none, country_id := none,
    product_images := none, profiles := none }

/-- Sample parameter tuple with page-size limit 10. -/
def paramsLimit10 : Params :=
  { searchQuery := "", selectedCategory := "all", selectedRegion := "all",
    selectedCountry := "all", sortOrder := "created_at", showOnlyPublished := false,
    userOnly := false, limit := 10 }

/-- The same parameter tuple with page-size limit 20. -/
def paramsLimit20 : Params := { paramsLimit10 with limit := 20 }

/-- Sample parameter tuple with `userOnly` set. -/
def userOnlyParams : Params := { paramsLimit10 with userOnly := true }

/-- Query state after one page has loaded, with no fetch in flight and
more pages believed to exist. -/
def loadedOnePageState : QueryState :=
  { dataPages := some [[sampleHProduct]], isFetchingNextPage := false, hasNextPage := true }

end Hooks

/-- Sample one-array store for the mutation-freedom claim. -/
def Modify.sampleStore : Modify.Store :=
  { arrays := [[Modify.draftProd, Modify.prod10]] }

/-! ### Helper lemmas about the local filter/sort view -/

theorem Modify.optFieldMatches_iff (f : Option String) (q : String) :
    Modify.optFieldMatches f (jsToLower q) = true ↔ Modify.ciOccursIn q f := by
  cases f <;> simp [Modify.optFieldMatches, Modify.ciOccursIn, jsIncludes]

theorem Modify.view_sorted (q c o : String) (l : List Modify.Product) :
    (Modify.filteredAndSortedProducts q c o l).Pairwise (Modify.sortRel o) :=
  List.sorted_insertionSort (Modify.sortRel o) (l.filter (Modify.passesFilter q c))

theorem Modify.view_mem {q c o : String} {l : List Modify.Product} {x : Modify.Product}
    (hx : x ∈ Modify.filteredAndSortedProducts q c o l) : x ∈ l := by
  have hperm := List.perm_insertionSort (Modify.sortRel o) (l.filter (Modify.passesFilter q c))
  exact List.mem_of_mem_filter (hperm.mem_iff.mp hx)

theorem Modify.sortRel_price_asc_iff (a b : Modify.Product) :
    Modify.sortRel "price_asc" a b ↔ Modify.priceOrZero a ≤ Modify.priceOrZero b := by
  unfold Modify.sortRel
  rw [Modify.compareProducts_le_iff]
  simp [Modify.sortKey]

theorem Modify.sortRel_price_desc_iff (a b : Modify.Product) :
    Modify.sortRel "price_desc" a b ↔ Modify.priceOrZero b ≤ Modify.priceOrZero a := by
  unfold Modify.sortRel
  rw [Modify.compareProducts_le_iff]
  simp [Modify.sortKey]

theorem Modify.sortRel_newest_iff (a b : Modify.Product) :
    Modify.sortRel "newest" a b ↔ b.created_at ≤ a.created_at := by
  unfold Modify.sortRel
  rw [Modify.compareProducts_le_iff]
  simp [Modify.sortKey]

theorem Modify.sortRel_oldest_iff (a b : Modify.Product) :
    Modify.sortRel "oldest" a b ↔ a.created_at ≤ b.created_at := by
  unfold Modify.sortRel
  rw [Modify.compareProducts_le_iff]
  simp [Modify.sortKey]

theorem Modify.sortRel_default_iff (o : String) (h1 : o ≠ "price_asc")
    (h2 : o ≠ "price_desc") (h3 : o ≠ "newest") (h4 : o ≠ "oldest")
    (a b : Modify.Product) :
    Modify.sortRel o a b ↔ (Modify.isDraft b = true → Modify.isDraft a = true) := by
  unfold Modify.sortRel Modify.compareProducts
  rw [if_neg h1, if_neg h2, if_neg h3, if_neg h4]
  cases hA : Modify.isDraft a <;> cases hB : Modify.isDraft b <;> simp [hA, hB]

theorem Modify.default_pairwise (q c o : String) (l : List Modify.Product)
    (h1 : o ≠ "price_asc") (h2 : o ≠ "price_desc") (h3 : o ≠ "newest") (h4 : o ≠ "oldest") :
    (Modify.filteredAndSortedProducts q c o l).Pairwise
      (fun a b => Modify.isDraft b = true → Modify.isDraft a = true) :=
  (Modify.view_sorted q c o l).imp
    (fun hab => (Modify.sortRel_default_iff o h1 h2 h3 h4 _ _).mp hab)

/-! ### The claims -/

/-- Claim C1: for every parameter tuple, authentication state and page
index `p`, `fetchProducts` requests exactly the inclusive, zero-based
row range `[p * limit, p * limit + limit - 1]` from the remote store;
being a function of its inputs, two calls with the same tuple and page
index request the identical range. -/
theorem claim_c1_fetch_range (pr : Hooks.Params) (auth : Option String) (page : Nat) :
    (Hooks.fetchProductsQuery pr auth page).range =
      ((page : Int) * (pr.limit : Int), (page : Int) * (pr.limit : Int) + (pr.limit : Int) - 1) := by
  simp only [Hooks.fetchProductsQuery]
  rw [Prod.mk.injEq]
  exact ⟨rfl, by ring⟩

/-- Claim C2: `getNextPageParam` yields `undefined` (no more pages) iff
the last page's length is strictly below `limit`, and otherwise yields
the number of pages fetched so far. -/
theorem claim_c2_next_page_param (limit : Nat) (lastPage : List Hooks.Product)
    (allPages : List (List Hooks.Product)) :
    (Hooks.getNextPageParam limit lastPage allPages = none ↔ lastPage.length < limit) ∧
    (¬ lastPage.length < limit →
      Hooks.getNextPageParam limit lastPage allPages = some allPages.length) := by
  unfold Hooks.getNextPageParam
  split_ifs with h <;> simp [h]

/-- Witness for C2 at a full page of length 1 with limit 1. -/
theorem claim_c2_witness :
    Hooks.getNextPageParam 1 [Hooks.sampleHProduct] [[Hooks.sampleHProduct]] = some 1 :=
  (claim_c2_next_page_param 1 [Hooks.sampleHProduct] [[Hooks.sampleHProduct]]).2 (by decide)

/-- Counterexample to C3 as stated: a whitespace-only search text is not
empty, and does not occur in the product's title, yet the product passes
the filter, because line 79 trims the lower-cased search text before
comparing it with the empty string. -/
theorem claim_c3_counterexample :
    Modify.passesFilter " " "all" Modify.appleProd = true ∧
    ¬ Modify.specPassesLiteral " " "all" Modify.appleProd := by
  exact ⟨by decide, by decide⟩

/-- Claim C3 (amended): a product passes the Local Filter/Sort View's
filter iff (the search text is empty after lower-casing and trimming, OR
it occurs case-insensitively as a substring of the title, the owner's
username, or the owner's full name) AND (the selected category is "all"
or equals the product's category exactly). -/
theorem claim_c3_filter_iff (q c : String) (p : Modify.Product) :
    Modify.passesFilter q c p = true ↔ Modify.specPassesAmended q c p := by
  unfold Modify.passesFilter Modify.matchesSearch Modify.matchesCategory Modify.specPassesAmended
  simp [Modify.optFieldMatches_iff, Bool.or_eq_true, Bool.and_eq_true, decide_eq_true_iff]
  tauto

/-- Claim C4: the Local Filter/Sort View's comparator orders by price
ascending under `price_asc`, price descending under `price_desc`,
creation time descending under `newest`, creation time ascending under
`oldest`, and otherwise places draft-status items before non-draft
items; in particular, inputs priced [10, 30, 20] yield [10, 20, 30]
under `price_asc` and [30, 20, 10] under `price_desc`. -/
theorem claim_c4_comparator :
    (∀ q c l, (Modify.filteredAndSortedProducts q c "price_asc" l).Pairwise
        (fun a b => Modify.priceOrZero a ≤ Modify.priceOrZero b)) ∧
    (∀ q c l, (Modify.filteredAndSortedProducts q c "price_desc" l).Pairwise
        (fun a b => Modify.priceOrZero b ≤ Modify.priceOrZero a)) ∧
    (∀ q c l, (Modify.filteredAndSortedProducts q c "newest" l).Pairwise
        (fun a b => b.created_at ≤ a.created_at)) ∧
    (∀ q c l, (Modify.filteredAndSortedProducts q c "oldest" l).Pairwise
        (fun a b => a.created_at ≤ b.created_at)) ∧
    (∀ q c o l, o ≠ "price_asc" → o ≠ "price_desc" → o ≠ "newest" → o ≠ "oldest" →
      (Modify.filteredAndSortedProducts q c o l).Pairwise
        (fun a b => Modify.isDraft b = true → Modify.isDraft a = true)) ∧
    Modify.filteredAndSortedProducts "" "all" "price_asc"
        [Modify.prod10, Modify.prod30, Modify.prod20] =
      [Modify.prod10, Modify.prod20, Modify.prod30] ∧
    Modify.filteredAndSortedProducts "" "all" "price_desc"
        [Modify.prod10, Modify.prod30, Modify.prod20] =
      [Modify.prod30, Modify.prod20, Modify.prod10] := by
  refine ⟨fun q c l => ?_, fun q c l => ?_, fun q c l => ?_, fun q c l => ?_,
    fun q c o l h1 h2 h3 h4 => Modify.default_pairwise q c o l h1 h2 h3 h4,
    by decide, by decide⟩
  · exact (Modify.view_sorted q c "price_asc" l).imp
      (fun hab => (Modify.sortRel_price_asc_iff _ _).mp hab)
  · exact (Modify.view_sorted q c "price_desc" l).imp
      (fun hab => (Modify.sortRel_price_desc_iff _ _).mp hab)
  · exact (Modify.view_sorted q c "newest" l).imp
      (fun hab => (Modify.sortRel_newest_iff _ _).mp hab)
  · exact (Modify.view_sorted q c "oldest" l).imp
      (fun hab => (Modify.sortRel_oldest_iff _ _).mp hab)

/-- Witness for C4: the default-mode conjunct applied at sortOrder
"none" on a concrete two-product list. -/
theorem claim_c4_witness :
    (Modify.filteredAndSortedProducts "" "all" "none"
        [Modify.publishedProd, Modify.draftProd]).Pairwise
      (fun a b => Modify.isDraft b = true → Modify.isDraft a = true) :=
  claim_c4_comparator.2.2.2.2.1 "" "all" "none" [Modify.publishedProd, Modify.draftProd]
    (by decide) (by decide) (by decide) (by decide)

/-- Counterexample to C5 as stated: two parameter tuples that differ
only in the page-size limit are distinct yet produce the same cache key,
because `queryKey` (lines 54–57) does not include `limit`. -/
theorem claim_c5_counterexample :
    Hooks.queryKey Hooks.paramsLimit10 = Hooks.queryKey Hooks.paramsLimit20 ∧
    Hooks.paramsLimit10 ≠ Hooks.paramsLimit20 := by
  exact ⟨by decide, by decide⟩

/-- Claim C5 (amended): every query parameter except the page-size limit
forms the cache key: two parameter tuples produce the same cache key iff
they agree on all components other than `limit`, so changing `limit`
alone reuses the cache entry of the previous tuple. -/
theorem claim_c5_query_key_iff (p1 p2 : Hooks.Params) :
    Hooks.queryKey p1 = Hooks.queryKey p2 ↔
      (p1.searchQuery = p2.searchQuery ∧ p1.selectedCategory = p2.selectedCategory ∧
       p1.selectedRegion = p2.selectedRegion ∧ p1.selectedCountry = p2.selectedCountry ∧
       p1.sortOrder = p2.sortOrder ∧ p1.showOnlyPublished = p2.showOnlyPublished ∧
       p1.userOnly = p2.userOnly) := by
  simp [Hooks.queryKey]

/-- Claim C6, evaluated at its failing input: with one page loaded, no
fetch in flight and `hasNextPage` true, `prefetchNextPage` does issue a
prefetch into the same cache key, but with `initialPageParam` 0 rather
than the next page index 1 (the computed `nextPageParam` is unused); the
three no-op conditions of the claim do hold. -/
theorem claim_c6_prefetch_bug :
    Hooks.prefetchNextPage Hooks.paramsLimit10 Hooks.loadedOnePageState =
      some { key := Hooks.queryKey Hooks.paramsLimit10, initialPageParam := 0 } ∧
    Hooks.loadedOnePageState.dataPages = some [[Hooks.sampleHProduct]] ∧
    ([[Hooks.sampleHProduct]] : List (List Hooks.Product)).length = 1 ∧
    (0 : Nat) ≠ 1 ∧
    Hooks.prefetchNextPage Hooks.paramsLimit10
      { Hooks.loadedOnePageState with dataPages := none } = none ∧
    Hooks.prefetchNextPage Hooks.paramsLimit10
      { Hooks.loadedOnePageState with isFetchingNextPage := true } = none ∧
    Hooks.prefetchNextPage Hooks.paramsLimit10
      { Hooks.loadedOnePageState with hasNextPage := false } = none := by
  decide

/-- Claim C7: when `userOnly` is set and an authenticated identity
exists, `fetchProducts` adds an equality filter on `user_id` to that
identity; when `userOnly` is set but no identity exists, no `user_id`
filter appears and the built query is exactly the one built with
`userOnly` unset — the absence of an identity is a no-op, not a
failure. -/
theorem claim_c7_user_only (pr : Hooks.Params) (auth : Option String) (page : Nat)
    (hUser : pr.userOnly = true) :
    (∀ uid, auth = some uid →
      Hooks.ProductFilter.eqUserId uid ∈ (Hooks.fetchProductsQuery pr auth page).filters) ∧
    (auth = none →
      (∀ uid, Hooks.ProductFilter.eqUserId uid ∉ (Hooks.fetchProductsQuery pr auth page).filters) ∧
      Hooks.fetchProductsQuery pr auth page =
        Hooks.fetchProductsQuery { pr with userOnly := false } auth page) := by
  constructor
  · rintro uid rfl
    simp [Hooks.fetchProductsQuery, hUser]
  · rintro rfl
    constructor
    · intro uid
      simp only [Hooks.fetchProductsQuery, hUser, List.mem_append]
      push_neg
      refine ⟨⟨⟨⟨⟨?_, ?_⟩, ?_⟩, ?_⟩, ?_⟩, ?_⟩ <;> split_ifs <;> simp
    · simp [Hooks.fetchProductsQuery, hUser]

/-- Witness for C7: with `userOnly` set and no authenticated identity,
the built query coincides with the `userOnly := false` query. -/
theorem claim_c7_witness :
    Hooks.fetchProductsQuery Hooks.userOnlyParams none 0 =
      Hooks.fetchProductsQuery { Hooks.userOnlyParams with userOnly := false } none 0 :=
  ((claim_c7_user_only Hooks.userOnlyParams none 0 rfl).2 rfl).2

/-- Counterexample to C8 as stated: in default sort mode the comparator
(lines 93–95) returns -1 when the first item is a draft and the second
is not, so draft items sort first, not last. -/
theorem claim_c8_counterexample :
    Modify.filteredAndSortedProducts "" "all" "none"
        [Modify.publishedProd, Modify.draftProd] =
      [Modify.draftProd, Modify.publishedProd] ∧
    Modify.isDraft Modify.draftProd = true ∧
    Modify.isDraft Modify.publishedProd = false := by
  decide

/-- Claim C8 (amended): in the default sort mode (sortOrder not one of
the price/time modes), items whose status is draft are ordered first,
before all non-draft items: no non-draft item precedes a draft item in
the output. -/
theorem claim_c8_draft_first (q c o : String) (l : List Modify.Product)
    (h1 : o ≠ "price_asc") (h2 : o ≠ "price_desc") (h3 : o ≠ "newest") (h4 : o ≠ "oldest") :
    (Modify.filteredAndSortedProducts q c o l).Pairwise
      (fun a b => Modify.isDraft b = true → Modify.isDraft a = true) :=
  Modify.default_pairwise q c o l h1 h2 h3 h4

/-- Witness for C8 at sortOrder "none" on a concrete list. -/
theorem claim_c8_witness :
    (Modify.filteredAndSortedProducts "" "all" "none"
        [Modify.draftProd, Modify.publishedProd, Modify.draftProd]).Pairwise
      (fun a b => Modify.isDraft b = true → Modify.isDraft a = true) :=
  claim_c8_draft_first "" "all" "none"
    [Modify.draftProd, Modify.publishedProd, Modify.draftProd]
    (by decide) (by decide) (by decide) (by decide)

/-- Claim C9: deriving the filtered-and-sorted view never mutates the
caller's products array: `.filter` allocates a fresh array and `.sort`
mutates only that fresh array, so the array at `r` is unchanged, while
the returned reference holds exactly the filtered-and-sorted view of the
input. -/
theorem claim_c9_no_mutation (s : Modify.Store) (r : Nat) (q c o : String)
    (h : r < s.arrays.length) :
    ((Modify.deriveView s r q c o).1).get r = s.get r ∧
    ((Modify.deriveView s r q c o).1).get (Modify.deriveView s r q c o).2 =
      Modify.filteredAndSortedProducts q c o (s.get r) := by
  have hne : s.arrays.length ≠ r := (Nat.ne_of_lt h).symm
  have hgetF : ∀ F : List Modify.Product, (s.arrays ++ [F]).getD s.arrays.length [] = F := by
    intro F
    rw [List.getD_eq_getElem?_getD, List.getElem?_concat_length]
    rfl
  have hframe : ∀ F V : List Modify.Product,
      ((s.arrays ++ [F]).set s.arrays.length V).getD r [] = s.arrays.getD r [] := by
    intro F V
    rw [List.getD_eq_getElem?_getD, List.getElem?_set_ne hne, List.getElem?_append,
      if_pos h, ← List.getD_eq_getElem?_getD]
  have hgetV : ∀ F V : List Modify.Product,
      ((s.arrays ++ [F]).set s.arrays.length V).getD s.arrays.length [] = V := by
    intro F V
    rw [List.getD_eq_getElem?_getD, List.getElem?_set_self (by simp)]
    rfl
  unfold Modify.deriveView Modify.Store.alloc Modify.Store.put Modify.Store.get
  exact ⟨hframe _ _, by rw [hgetV, hgetF]; rfl⟩

/-- Witness for C9 on a concrete one-array store. -/
theorem claim_c9_witness :
    ((Modify.deriveView Modify.sampleStore 0 "" "all" "none").1).get 0 =
      Modify.sampleStore.get 0 ∧
    ((Modify.deriveView Modify.sampleStore 0 "" "all" "none").1).get
        (Modify.deriveView Modify.sampleStore 0 "" "all" "none").2 =
      Modify.filteredAndSortedProducts "" "all" "none" (Modify.sampleStore.get 0) :=
  claim_c9_no_mutation Modify.sampleStore 0 "" "all" "none" (by decide)

/-- Counterexample to C10 as stated: in a collection containing a
negatively-priced product, the product with an absent price is not
ordered first under `price_asc` — the negative price sorts before the
defaulted 0. -/
theorem claim_c10_counterexample :
    Modify.filteredAndSortedProducts "" "all" "price_asc"
        [Modify.prodNegPrice, Modify.prodNoPrice] =
      [Modify.prodNegPrice, Modify.prodNoPrice] ∧
    Modify.prodNoPrice.price = none ∧
    Modify.prodNegPrice.price = some (-1) := by
  decide

/-- Claim C10 (amended): the comparator treats a product whose price is
absent exactly as one priced 0 (on either side, in every mode), so such
products are ordered together with genuinely zero-priced products; and
in collections whose present prices are all non-negative they come first
under `price_asc` and last under `price_desc`. -/
theorem claim_c10_null_price :
    (∀ o (a b : Modify.Product), a.price = none →
      Modify.compareProducts o a b = Modify.compareProducts o { a with price := some 0 } b) ∧
    (∀ o (a b : Modify.Product), b.price = none →
      Modify.compareProducts o a b = Modify.compareProducts o a { b with price := some 0 }) ∧
    (∀ q c l, (∀ p ∈ l, 0 ≤ Modify.priceOrZero p) →
      (Modify.filteredAndSortedProducts q c "price_asc" l).Pairwise
        (fun a b => Modify.priceOrZero b = 0 → Modify.priceOrZero a = 0)) ∧
    (∀ q c l, (∀ p ∈ l, 0 ≤ Modify.priceOrZero p) →
      (Modify.filteredAndSortedProducts q c "price_desc" l).Pairwise
        (fun a b => Modify.priceOrZero a = 0 → Modify.priceOrZero b = 0)) := by
  refine ⟨?_, ?_, ?_, ?_⟩
  · intro o a b h
    simp [Modify.compareProducts, Modify.priceOrZero, Modify.isDraft, h]
  · intro o a b h
    simp [Modify.compareProducts, Modify.priceOrZero, Modify.isDraft, h]
  · intro q c l hnn
    refine (Modify.view_sorted q c "price_asc" l).imp_of_mem ?_
    intro a b ha hb hr hb0
    have h0a : 0 ≤ Modify.priceOrZero a := hnn a (Modify.view_mem ha)
    have hle := (Modify.sortRel_price_asc_iff a b).mp hr
    omega
  · intro q c l hnn
    refine (Modify.view_sorted q c "price_desc" l).imp_of_mem ?_
    intro a b ha hb hr ha0
    have h0b : 0 ≤ Modify.priceOrZero b := hnn b (Modify.view_mem hb)
    have hle := (Modify.sortRel_price_desc_iff a b).mp hr
    omega

/-- Witness for C10 on a concrete non-negatively-priced list containing
a product with an absent price. -/
theorem claim_c10_witness :
    (Modify.filteredAndSortedProducts "" "all" "price_asc"
        [Modify.prod10, Modify.prodNoPrice]).Pairwise
      (fun a b => Modify.priceOrZero b = 0 → Modify.priceOrZero a = 0) :=
  claim_c10_null_price.2.2.1 "" "all" [Modify.prod10, Modify.prodNoPrice] (by decide)

end BestBuy
